import Mathlib

/-!
Verification development for the salp USDT-probe library (Go, cgo bindings to
the native libstapsdt tracing library).

The Go source is shallowly embedded below.  Pure control flow of the Go
functions (`AddProbe`, `MustAddProbe`, `Load`, `MustLoadProvider`, `Enabled`,
`Fire`/`fireImpl`) and of the cgo wrapper functions (`salp_providerAddProbe`,
`salp_probeFire`) is translated directly from the source file.  The native
library itself (libstapsdt) is an external collaborator that is not part of
the repository: its operations (`providerInit`, `providerAddProbe`,
`providerLoad`, `probeIsEnabled`) and its code-patching convention are
modelled from the specification's description of that interface; each such
definition carries a doc comment starting with "Modelled from the spec".

Mutable native memory is made explicit: the `C.CString`/`C.free` transient
buffers become an allocation/free log in a `FireTrace`, the `[6]unsafe.Pointer`
argument block becomes a list of six slots together with the list of indices
written, the probe's `_fire` trampoline pointer becomes a `Trampoline` value
passed to `Enabled`/`Fire`, and Go `panic` becomes the `MustOutcome.panicked`
constructor.  Machine integers are `Nat`/`Int` with explicit reduction
modulo 2^64 where the source converts to `uintptr`.
-/

namespace Salp

/-! Section: ArgType registry

`ProbeArgType` enumerates the libstapsdt `ArgType_t` wire tags used by the
source's constants `Uint8 .. Int64`.  The source's remaining constants are
aliases: `Bool = Uint8`, `Byte = Uint8`, `String = ProbeArgType(C.uint64)`,
`Error = String`; they are given below as definitions equal to the aliased
tag, exactly as in the source. -/

inductive ProbeArgType where
  | uint8
  | int8
  | uint16
  | int16
  | uint32
  | int32
  | uint64
  | int64
deriving DecidableEq

namespace ProbeArgType

/-- Source: `Bool = Uint8`. -/
def boolTag : ProbeArgType := uint8

/-- Source: `Byte = Uint8`. -/
def byteTag : ProbeArgType := uint8

/-- Source: `String = ProbeArgType(C.uint64)`. -/
def stringTag : ProbeArgType := uint64

/-- Source: `Error = String`. -/
def errorTag : ProbeArgType := stringTag

end ProbeArgType

/-! Section: Error plumbing -/

/-- Modelled from the spec: the error kinds the native library can leave in a
provider's `errno` field.  The spec names `noError`-like clear state,
`TooManyArguments` (more than 6 argument types), and load failures
(resource exhaustion / duplicate provider name); the exact numeric codes are
native-library internals, so the kinds are modelled as an enumeration. -/
inductive ErrCode where
  | noError
  | tooManyArguments
  | loadFailure
deriving DecidableEq

/-- Source `stapsdtError`: the error value the Go layer builds from the
provider's `errno` and `error` fields. -/
structure stapsdtError where
  code : ErrCode
  msg : String
deriving DecidableEq

/-! Section: Provider and Probe data -/

/-- Source `Provider = C.struct_SDTProvider`.  The C struct's fields that the
Go code reads (`name`, `errno`, `error`) are carried directly; `loaded` is the
native lifecycle state; `loadOutcome` is modelled from the spec: the return
code the native `providerLoad` reports for this provider in its current
environment (0 ordinarily; nonzero on resource exhaustion or a duplicate
provider name). -/
structure Provider where
  name : String
  loaded : Bool
  errno : ErrCode
  error : String
  loadOutcome : Int
deriving DecidableEq

/-- Source `Probe = C.struct_SDTProbe`, the creation-time part: `name`,
`argCount` and the registered argument tags.  The probe's mutable `_fire`
trampoline pointer is runtime native state and is passed separately as a
`Trampoline` value to `Enabled`/`Fire`. -/
structure Probe where
  name : String
  argCount : Nat
  argTypes : List ProbeArgType
deriving DecidableEq

/-- The probe's `_fire` pointer as the Go code observes it: either the null
pointer (`uintptr(ptr) == 0`), or a pointer to trampoline code whose first
byte is `firstByte`. -/
inductive Trampoline where
  | null
  | code (firstByte : Nat)
deriving DecidableEq

/-! Section: Native-library model (external collaborator, modelled from the spec) -/

/-- Modelled from the spec: the abstract native-side state of one probe — is
the owning provider Loaded, and is an external observer currently attached to
this specific probe. -/
structure NativeProbeState where
  loaded : Bool
  attached : Bool
deriving DecidableEq

/-- Modelled from the spec: `isEnabled(probe)`, the native library's
authoritative (higher-overhead) enablement query — true iff the owning
provider is Loaded and an external observer is attached to the probe. -/
def probeIsEnabled (s : NativeProbeState) : Bool :=
  s.loaded && s.attached

/-- Modelled from the spec: the native library's code-patching convention for
the trampoline the probe's `_fire` pointer addresses.  Before the provider is
loaded the pointer is null; once loaded, the unpatched (unobserved) trampoline
begins with the no-op encoding 0x90; attaching an observer patches the first
byte to the breakpoint encoding 0xCC. -/
def trampolineOf (s : NativeProbeState) : Trampoline :=
  if s.loaded then
    (if s.attached then .code 0xCC else .code 0x90)
  else .null

/-- Modelled from the spec: native `providerInit(name)` — allocates the
provider namespace resource; the fresh provider is Unloaded with a clear
error state. -/
def providerInit (name : String) : Provider :=
  { name := name, loaded := false, errno := .noError, error := "", loadOutcome := 0 }

/-- Modelled from the spec: native `providerAddProbe(provider, name, argCount,
argTypes...)` — registers a probe signature reading `argCount` variadic type
arguments; fails (returning null and setting the provider's error state to the
TooManyArguments kind) iff `argCount` exceeds 6. -/
def nativeProviderAddProbe (p : Provider) (name : String) (argCount : Nat)
    (ats : List ProbeArgType) : Option Probe × Provider :=
  if argCount > 6 then
    (none, { p with errno := .tooManyArguments, error := "too many arguments" })
  else
    (some ⟨name, argCount, ats.take argCount⟩, p)

/-- Modelled from the spec: native `providerLoad` — patches/publishes the
trace points; returns 0 and moves the provider to Loaded on success, or the
provider's nonzero outcome code on failure, setting the error state and
leaving the provider Unloaded. -/
def providerLoad (p : Provider) : Int × Provider :=
  if p.loadOutcome = 0 then (0, { p with loaded := true })
  else (p.loadOutcome, { p with errno := .loadFailure, error := "load failed" })

/-! Section: The Go layer: provider lifecycle -/

/-- Source `NewProvider`: creates a provider via native `providerInit`. -/
def NewProvider (name : String) : Provider :=
  providerInit name

/-- Source `(p *Provider) err()`: builds a `stapsdtError` from the provider's
current `errno` and `error` fields. -/
def Provider.err (p : Provider) : stapsdtError :=
  ⟨p.errno, p.error⟩

/-- Source cgo wrapper `salp_providerAddProbe`: a switch on the argument count
`c`.  Cases 0 through 5 forward `c` and the first `c` type tags to the native
`providerAddProbe`; the case for `c == 6` passes the literal argument count 5
together with six variadic tags (so the native library reads only the first
five), exactly as in the source; the default case returns NULL without
calling the native library at all. -/
def salp_providerAddProbe (p : Provider) (name : String) (c : Nat)
    (ats : List ProbeArgType) : Option Probe × Provider :=
  if c = 0 then nativeProviderAddProbe p name 0 []
  else if c = 1 then nativeProviderAddProbe p name 1 (ats.take 1)
  else if c = 2 then nativeProviderAddProbe p name 2 (ats.take 2)
  else if c = 3 then nativeProviderAddProbe p name 3 (ats.take 3)
  else if c = 4 then nativeProviderAddProbe p name 4 (ats.take 4)
  else if c = 5 then nativeProviderAddProbe p name 5 (ats.take 5)
  else if c = 6 then nativeProviderAddProbe p name 5 (ats.take 6)
  else (none, p)

/-- Source `Provider.AddProbe`: calls the cgo wrapper with `len(argTypes)` and
the tag array; on a NULL result returns the error built by `err()` from the
provider's current error fields, otherwise the new probe. -/
def Provider.AddProbe (p : Provider) (name : String)
    (argTypes : List ProbeArgType) : Except stapsdtError Probe × Provider :=
  match salp_providerAddProbe p name argTypes.length argTypes with
  | (none, p2) => (.error p2.err, p2)
  | (some prb, p2) => (.ok prb, p2)

/-- The observable outcome of a `Must...` helper: a Go `panic` carrying the
error, or a normal return. -/
inductive MustOutcome (α : Type) where
  | panicked (e : stapsdtError)
  | returned (v : α)
deriving DecidableEq

/-- Source `MustAddProbe`: calls `AddProbe` and panics with the error when one
is returned, otherwise returns the probe (the provider state it leaves behind
is the one `AddProbe` produced). -/
def MustAddProbe (p : Provider) (name : String) (argTypes : List ProbeArgType) :
    MustOutcome (Probe × Provider) :=
  match Provider.AddProbe p name argTypes with
  | (.error e, _) => .panicked e
  | (.ok prb, p2) => .returned (prb, p2)

/-- Source `Provider.Load`: calls native `providerLoad`; a nonzero return code
becomes the error built by `err()`, otherwise nil. -/
def Provider.Load (p : Provider) : Option stapsdtError × Provider :=
  let rp := providerLoad p
  if rp.1 ≠ 0 then (some rp.2.err, rp.2) else (none, rp.2)

/-- Source `MustLoadProvider`: calls `Load` and panics with the error when one
is returned. -/
def MustLoadProvider (p : Provider) : MustOutcome Provider :=
  match Provider.Load p with
  | (some e, _) => .panicked e
  | (none, p2) => .returned p2

/-! Section: The Go layer: enablement check -/

/-- Source `Probe.Enabled` (the low-overhead path actually compiled):
`ptr := p._fire; return uintptr(ptr) != 0 && *(*uint8)(ptr)&0x90 != 0x90`. -/
def Enabled (t : Trampoline) : Bool :=
  match t with
  | .null => false
  | .code b => b &&& 0x90 != 0x90

/-! Section: The Go layer: firing and value marshalling

`fireImpl`'s loop keeps explicit state: the six-slot argument block `ba`,
the indices written into it, the next fresh address for a `C.CString`
allocation, the allocations in order, and the stack of deferred `C.free`
calls (head = most recently deferred, the order Go runs them in at return). -/

/-- A dynamically-typed Go value passed to `Fire`, by runtime type, covering
exactly the cases of `fireImpl`'s type switch; `vunsupported` stands for a
value of any runtime type outside that switch (its `default` case). `verror`
carries the string `ta.Error()` yields. -/
inductive GoVal where
  | vbool (b : Bool)
  | vint8 (n : Int)
  | vuint8 (n : Nat)
  | vint16 (n : Int)
  | vuint16 (n : Nat)
  | vint (n : Int)
  | vuint (n : Nat)
  | vint32 (n : Int)
  | vuint32 (n : Nat)
  | vint64 (n : Int)
  | vuint64 (n : Nat)
  | vuintptr (n : Nat)
  | vstring (s : String)
  | verror (msg : String)
  | vunsupported
deriving DecidableEq

/-- Go's conversion of a signed integer to `uintptr`: sign-extend and reduce
modulo 2^64. -/
def uintptrOfInt (n : Int) : Nat :=
  (n % ((2 : Int) ^ 64)).toNat

/-- Go's conversion of an unsigned integer to `uintptr`: reduce modulo 2^64. -/
def uintptrOfNat (n : Nat) : Nat :=
  n % 2 ^ 64

/-- One slot of the `[6]unsafe.Pointer` argument block: a pointer-sized
integer stored by value, or a pointer to a transient null-terminated C string
(its address and its text). -/
inductive CSlot where
  | num (n : Nat)
  | ptr (addr : Nat) (contents : String)
deriving DecidableEq

/-- The mutable state of `fireImpl`'s marshalling loop. -/
structure LoopState where
  ba : List CSlot
  writes : List Nat
  nextAddr : Nat
  allocated : List Nat
  defers : List Nat
deriving DecidableEq

/-- The state on entry to `fireImpl`: `ba := [6]unsafe.Pointer{}` (six zero
slots), nothing written, allocated or deferred. -/
def LoopState.init : LoopState :=
  ⟨List.replicate 6 (CSlot.num 0), [], 0, [], []⟩

/-- Assignment `ba[i] = s` for a by-value slot. -/
def LoopState.write (st : LoopState) (i : Nat) (s : CSlot) : LoopState :=
  { st with ba := st.ba.set i s, writes := st.writes ++ [i] }

/-- Source lines `strptr := C.CString(text); defer C.free(strptr); ba[i] = strptr`:
allocate a fresh transient buffer, push its free onto the defer stack, and
store the pointer in slot `i`. -/
def LoopState.allocWrite (st : LoopState) (i : Nat) (text : String) : LoopState :=
  { st with ba := st.ba.set i (.ptr st.nextAddr text),
            writes := st.writes ++ [i],
            nextAddr := st.nextAddr + 1,
            allocated := st.allocated ++ [st.nextAddr],
            defers := st.nextAddr :: st.defers }

/-- How `fireImpl`'s loop ended: an early `return` out of the type switch's
`default` case, or completion of the loop. Both carry the loop state. -/
inductive MarshalOut where
  | aborted (st : LoopState)
  | completed (st : LoopState)
deriving DecidableEq

def MarshalOut.state : MarshalOut → LoopState
  | .aborted st => st
  | .completed st => st

/-- Source `fireImpl`'s `for i := 0; i < len(args); i++` loop with its type
switch, one case per supported runtime type, building `ba[i]` exactly as the
source does; the `default` case returns early. -/
def marshalLoop : List GoVal → Nat → LoopState → MarshalOut
  | [], _, st => .completed st
  | a :: rest, i, st =>
    match a with
    | .vbool b => marshalLoop rest (i + 1) (st.write i (.num (if b then 1 else 0)))
    | .vint8 n => marshalLoop rest (i + 1) (st.write i (.num (uintptrOfInt n)))
    | .vuint8 n => marshalLoop rest (i + 1) (st.write i (.num (uintptrOfNat n)))
    | .vint16 n => marshalLoop rest (i + 1) (st.write i (.num (uintptrOfInt n)))
    | .vuint16 n => marshalLoop rest (i + 1) (st.write i (.num (uintptrOfNat n)))
    | .vint n => marshalLoop rest (i + 1) (st.write i (.num (uintptrOfInt n)))
    | .vuint n => marshalLoop rest (i + 1) (st.write i (.num (uintptrOfNat n)))
    | .vint32 n => marshalLoop rest (i + 1) (st.write i (.num (uintptrOfInt n)))
    | .vuint32 n => marshalLoop rest (i + 1) (st.write i (.num (uintptrOfNat n)))
    | .vint64 n => marshalLoop rest (i + 1) (st.write i (.num (uintptrOfInt n)))
    | .vuint64 n => marshalLoop rest (i + 1) (st.write i (.num (uintptrOfNat n)))
    | .vuintptr n => marshalLoop rest (i + 1) (st.write i (.num (uintptrOfNat n)))
    | .vstring s => marshalLoop rest (i + 1) (st.allocWrite i s)
    | .verror m => marshalLoop rest (i + 1) (st.allocWrite i m)
    | .vunsupported => .aborted st

/-- Source cgo wrapper `salp_probeFire`: a switch on `p->argCount` whose case
`k` (0 ≤ k ≤ 6) invokes the native variadic `probeFire` with exactly the first
`k` slots of `ba`; an argCount outside 0..6 matches no case and nothing is
invoked.  The result is the slot list handed to the native fire primitive,
or `none` when it is never invoked. -/
def salp_probeFire (argCount : Nat) (ba : List CSlot) : Option (List CSlot) :=
  if argCount = 0 then some (ba.take 0)
  else if argCount = 1 then some (ba.take 1)
  else if argCount = 2 then some (ba.take 2)
  else if argCount = 3 then some (ba.take 3)
  else if argCount = 4 then some (ba.take 4)
  else if argCount = 5 then some (ba.take 5)
  else if argCount = 6 then some (ba.take 6)
  else none

/-- Everything observable about one `Fire` call: the slots handed to the
native fire primitive (`none` when it was never invoked), the `ba` indices
written by the marshaller, the transient C-string buffers allocated (in
order), and the buffers freed (in order; the deferred frees run when the call
returns, on every exit path). -/
structure FireTrace where
  nativeFire : Option (List CSlot)
  writes : List Nat
  allocated : List Nat
  freed : List Nat
deriving DecidableEq

/-- The trace of a `Fire` call that returned at the initial guard: nothing
marshalled, allocated, freed or fired. -/
def emptyFireTrace : FireTrace :=
  ⟨none, [], [], []⟩

/-- Source `fireImpl`: run the marshalling loop over the arguments; on its
early return the native fire primitive is not invoked; on completion
`C.salp_probeFire(p, &ba[0])` runs; either way the deferred frees run at
return. -/
def fireImpl (p : Probe) (args : List GoVal) : FireTrace :=
  match marshalLoop args 0 .init with
  | .aborted st => ⟨none, st.writes, st.allocated, st.defers⟩
  | .completed st => ⟨salp_probeFire p.argCount st.ba, st.writes, st.allocated, st.defers⟩

/-- Source `Probe.Fire`:
`if !p.Enabled() || len(args) != int(p.argCount) { return }; p.fireImpl(args...)`.
`t` is the probe's current `_fire` trampoline state. -/
def Probe.Fire (p : Probe) (t : Trampoline) (args : List GoVal) : FireTrace :=
  if !(Enabled t) || args.length != p.argCount then emptyFireTrace
  else fireImpl p args

/-- The closed runtime argument-type set the spec names (§3's ArgType
enumeration together with its aliases): sized integers at widths 8/16/32/64,
bool, byte (= uint8 in Go), string, and error (an alias for string).  This
definition is stated from the spec's words, for comparison with the set the
implementation's type switch actually accepts. -/
def specClosedSetVal : GoVal → Bool
  | .vbool _ => true
  | .vint8 _ => true
  | .vuint8 _ => true
  | .vint16 _ => true
  | .vuint16 _ => true
  | .vint32 _ => true
  | .vuint32 _ => true
  | .vint64 _ => true
  | .vuint64 _ => true
  | .vstring _ => true
  | .verror _ => true
  | .vint _ => false
  | .vuint _ => false
  | .vuintptr _ => false
  | .vunsupported => false

/-! Section: Helper lemmas about the marshalling loop -/

/-- When some argument has an unsupported runtime type, the marshalling loop
ends in its early-return case, whatever state it starts from. -/
theorem marshalLoop_aborts_of_unsupported (args : List GoVal) :
    ∀ (i : Nat) (st : LoopState), GoVal.vunsupported ∈ args →
      ∃ st', marshalLoop args i st = .aborted st' := by
  induction args with
  | nil =>
    intro i st h
    exact absurd h (List.not_mem_nil _)
  | cons a rest ih =>
    intro i st h
    rcases List.mem_cons.mp h with h1 | h2
    · subst h1
      exact ⟨st, rfl⟩
    · cases a
      case vunsupported => exact ⟨st, rfl⟩
      all_goals exact ih _ _ h2

/-- The defer stack always holds exactly the allocated addresses in reverse
(LIFO) order: the invariant Go's defer semantics maintains, proved for the
loop's explicit state. -/
theorem marshalLoop_defers_eq_reverse (args : List GoVal) :
    ∀ (i : Nat) (st : LoopState), st.defers = st.allocated.reverse →
      (marshalLoop args i st).state.defers =
        (marshalLoop args i st).state.allocated.reverse := by
  induction args with
  | nil => intro i st h; exact h
  | cons a rest ih =>
    intro i st h
    cases a
    case vunsupported => exact h
    case vstring s => exact ih _ _ (by simp [LoopState.allocWrite, h])
    case verror m => exact ih _ _ (by simp [LoopState.allocWrite, h])
    all_goals exact ih _ _ h

/-- Every `ba` index the loop writes is below the starting index plus the
number of arguments processed. -/
theorem marshalLoop_writes_bound (args : List GoVal) :
    ∀ (i : Nat) (st : LoopState), (∀ j ∈ st.writes, j < i) →
      ∀ j ∈ (marshalLoop args i st).state.writes, j < i + args.length := by
  induction args with
  | nil =>
    intro i st h j hj
    exact Nat.lt_of_lt_of_le (h j hj) (Nat.le_add_right i 0)
  | cons a rest ih =>
    intro i st h
    have hstep : ∀ j ∈ st.writes ++ [i], j < i + 1 := by
      intro j hj
      rcases List.mem_append.mp hj with hj | hj
      · exact Nat.lt_succ_of_lt (h j hj)
      · simp at hj; omega
    cases a
    case vunsupported =>
      intro j hj
      have := h j hj
      simp only [List.length_cons]
      omega
    case vstring s =>
      intro j hj
      have := ih (i + 1) (st.allocWrite i s) hstep j hj
      simp only [List.length_cons]
      omega
    case verror m =>
      intro j hj
      have := ih (i + 1) (st.allocWrite i m) hstep j hj
      simp only [List.length_cons]
      omega
    all_goals
      intro j hj
      have := ih (i + 1) _ hstep j hj
      simp only [List.length_cons]
      omega

/-- A probe the cgo wrapper hands back never carries a declared argument count
above 6 (in fact the wrapper's switch passes at most 5 to the native layer). -/
theorem salp_providerAddProbe_argCount_le_six (pv : Provider) (nm : String)
    (c : Nat) (ats : List ProbeArgType) (prb : Probe) (pv2 : Provider)
    (h : salp_providerAddProbe pv nm c ats = (some prb, pv2)) :
    prb.argCount ≤ 6 := by
  unfold salp_providerAddProbe nativeProviderAddProbe at h
  split_ifs at h
  all_goals
    first
      | omega
      | (simp at h
         done)
      | (simp only [Prod.mk.injEq, Option.some.injEq] at h
         rw [← h.1]
         simp)

/-! Section: Claim theorems -/

/-- Claim C1 (code bug, evaluated at the failing input): a probe added with
six declared argument types is registered by the cgo wrapper with native
argument count 5 (the wrapper's `case 6` passes the literal 5), so firing it
with six supported values fails the arity check and the native fire primitive
is never invoked — it never fires with the declared arity of 6. -/
theorem six_type_probe_registers_arity_five_and_never_fires_six_args :
    (Provider.AddProbe (NewProvider "pv") "p" (List.replicate 6 ProbeArgType.int8)).1 =
      Except.ok ⟨"p", 5, List.replicate 5 ProbeArgType.int8⟩ ∧
    (Probe.Fire ⟨"p", 5, List.replicate 5 ProbeArgType.int8⟩ (Trampoline.code 0xCC)
        (List.replicate 6 (GoVal.vint8 1))).nativeFire = none :=
  ⟨rfl, rfl⟩

/-- Claim C2, counterexample: AddProbe with seven argument types on a fresh
provider does fail, but the error it returns is not of the TooManyArguments
kind — the wrapper's default case returns NULL without invoking the native
library, so the error carries the provider's untouched clear error state. -/
theorem seven_type_error_is_not_tooManyArguments :
    (Provider.AddProbe (NewProvider "foo") "baz" (List.replicate 7 ProbeArgType.int8)).1 =
      Except.error ⟨ErrCode.noError, ""⟩ ∧
    ErrCode.noError ≠ ErrCode.tooManyArguments :=
  ⟨rfl, by decide⟩

/-- Claim C2 (amended): AddProbe with exactly six argument types succeeds and
returns a probe; with seven or more it fails, but the native library is never
invoked, so the returned error merely reproduces the provider's pre-existing
error state (its current `errno` code and `error` message) and the provider is
left unchanged. -/
theorem addProbe_six_succeeds_seven_plus_fails_with_preexisting_error
    (p : Provider) (name : String) (ts : List ProbeArgType) :
    (ts.length = 6 →
      (Provider.AddProbe p name ts).1 = .ok ⟨name, 5, ts.take 5⟩) ∧
    (7 ≤ ts.length →
      Provider.AddProbe p name ts = (.error ⟨p.errno, p.error⟩, p)) := by
  constructor
  · intro h6
    unfold Provider.AddProbe salp_providerAddProbe nativeProviderAddProbe
    rw [h6]
    simp [List.take_take]
  · intro h7
    have h0 : ts.length ≠ 0 := by omega
    have h1 : ts.length ≠ 1 := by omega
    have h2 : ts.length ≠ 2 := by omega
    have h3 : ts.length ≠ 3 := by omega
    have h4 : ts.length ≠ 4 := by omega
    have h5 : ts.length ≠ 5 := by omega
    have h6 : ts.length ≠ 6 := by omega
    unfold Provider.AddProbe salp_providerAddProbe
    simp [Provider.err, h0, h1, h2, h3, h4, h5, h6]

/-- Witness for the amended C2 theorem at concrete inputs: six int8 tags
succeed on a fresh provider, seven fail with the fresh provider's clear
error state. -/
theorem addProbe_six_succeeds_seven_plus_fails_witness :
    ((Provider.AddProbe (NewProvider "w2") "p6" (List.replicate 6 ProbeArgType.int8)).1 =
      .ok ⟨"p6", 5, (List.replicate 6 ProbeArgType.int8).take 5⟩) ∧
    Provider.AddProbe (NewProvider "w2") "p7" (List.replicate 7 ProbeArgType.int8) =
      (.error ⟨(NewProvider "w2").errno, (NewProvider "w2").error⟩, NewProvider "w2") :=
  ⟨(addProbe_six_succeeds_seven_plus_fails_with_preexisting_error
      (NewProvider "w2") "p6" (List.replicate 6 ProbeArgType.int8)).1 rfl,
   (addProbe_six_succeeds_seven_plus_fails_with_preexisting_error
      (NewProvider "w2") "p7" (List.replicate 7 ProbeArgType.int8)).2 (by norm_num)⟩

/-- Claim C3: Fire first checks `enabled()` and also checks that the supplied
argument count equals the probe's declared count; when either check fails it
returns immediately with the empty trace — no native call, no write, no
allocation, no error. -/
theorem fire_is_noop_when_disabled_or_arity_mismatch (p : Probe) (t : Trampoline)
    (args : List GoVal) (h : Enabled t = false ∨ args.length ≠ p.argCount) :
    Probe.Fire p t args = emptyFireTrace := by
  rcases h with h | h <;> simp [Probe.Fire, h]

/-- Witness for C3: firing a one-argument probe whose trampoline pointer is
still null is a no-op. -/
theorem fire_is_noop_witness :
    Probe.Fire ⟨"p1", 1, [ProbeArgType.int8]⟩ Trampoline.null [GoVal.vint8 3] =
      emptyFireTrace :=
  fire_is_noop_when_disabled_or_arity_mismatch _ _ _ (Or.inl rfl)

/-- Claim C4: an argument list of the declared length that contains a value of
unsupported runtime type makes the whole fire operation abort silently — the
native fire primitive is never invoked, and every transient buffer allocated
before the abort is released. -/
theorem fire_aborts_wholly_on_unsupported_argument (p : Probe) (t : Trampoline)
    (args : List GoVal) (_hlen : args.length = p.argCount)
    (hmem : GoVal.vunsupported ∈ args) :
    (Probe.Fire p t args).nativeFire = none ∧
    (Probe.Fire p t args).freed = (Probe.Fire p t args).allocated.reverse := by
  unfold Probe.Fire
  split
  · exact ⟨rfl, rfl⟩
  · unfold fireImpl
    obtain ⟨st', hst⟩ := marshalLoop_aborts_of_unsupported args 0 .init hmem
    have hd := marshalLoop_defers_eq_reverse args 0 .init rfl
    rw [hst] at hd ⊢
    exact ⟨rfl, hd⟩

/-- Witness for C4 at a six-slot argument list whose last (sixth) value has an
unsupported type: nothing reaches the native layer and the transient buffers
balance. -/
theorem fire_aborts_on_unsupported_witness :
    (Probe.Fire ⟨"p6", 6, List.replicate 6 ProbeArgType.int8⟩ (Trampoline.code 0xCC)
        [GoVal.vint8 1, GoVal.vint8 2, GoVal.vint8 3, GoVal.vint8 4, GoVal.vint8 5,
          GoVal.vunsupported]).nativeFire = none ∧
    (Probe.Fire ⟨"p6", 6, List.replicate 6 ProbeArgType.int8⟩ (Trampoline.code 0xCC)
        [GoVal.vint8 1, GoVal.vint8 2, GoVal.vint8 3, GoVal.vint8 4, GoVal.vint8 5,
          GoVal.vunsupported]).freed =
      (Probe.Fire ⟨"p6", 6, List.replicate 6 ProbeArgType.int8⟩ (Trampoline.code 0xCC)
        [GoVal.vint8 1, GoVal.vint8 2, GoVal.vint8 3, GoVal.vint8 4, GoVal.vint8 5,
          GoVal.vunsupported]).allocated.reverse :=
  fire_aborts_wholly_on_unsupported_argument _ _ _ rfl (by decide)

/-- Claim C5: on every reachable native probe state, the low-overhead path
that inspects the trampoline's first byte returns the same boolean as the
native library's authoritative `probeIsEnabled` query. -/
theorem enabled_fast_path_agrees_with_native_query (s : NativeProbeState) :
    Enabled (trampolineOf s) = probeIsEnabled s := by
  rcases s with ⟨l, a⟩
  cases l <;> cases a <;> rfl

/-- Claim C6: every transient C-string buffer a Fire call allocates is freed
within that same call, on every exit path (guard return, marshalling abort,
and successful fire), in LIFO defer order — so repeated fire cycles leak no
transient buffers. -/
theorem fire_releases_every_transient_buffer (p : Probe) (t : Trampoline)
    (args : List GoVal) :
    (Probe.Fire p t args).freed = (Probe.Fire p t args).allocated.reverse ∧
    ∀ a, a ∈ (Probe.Fire p t args).allocated ↔ a ∈ (Probe.Fire p t args).freed := by
  have key : (Probe.Fire p t args).freed = (Probe.Fire p t args).allocated.reverse := by
    unfold Probe.Fire
    split
    · rfl
    · unfold fireImpl
      have hd := marshalLoop_defers_eq_reverse args 0 .init rfl
      cases hm : marshalLoop args 0 .init with
      | aborted st => rw [hm] at hd; exact hd
      | completed st => rw [hm] at hd; exact hd
  refine ⟨key, fun a => ?_⟩
  rw [key, List.mem_reverse]

/-- Claim C7: a probe is never enabled before its provider has been loaded,
and the enabled check answers true only when the provider is loaded and an
observer is attached to this probe. -/
theorem enabled_false_before_load_true_only_when_observed (s : NativeProbeState) :
    (s.loaded = false → Enabled (trampolineOf s) = false) ∧
    (Enabled (trampolineOf s) = true → s.loaded = true ∧ s.attached = true) := by
  rcases s with ⟨l, a⟩
  cases l <;> cases a <;> exact ⟨by decide, by decide⟩

/-- Claim C8: a probe obtained from AddProbe has a declared argument count of
at most 6, and a Fire call on it only ever writes argument slots with index
strictly below that declared count. -/
theorem marshaller_writes_only_below_declared_count (pv : Provider) (nm : String)
    (ts : List ProbeArgType) (prb : Probe) (pv2 : Provider)
    (h : Provider.AddProbe pv nm ts = (.ok prb, pv2)) :
    prb.argCount ≤ 6 ∧
    ∀ (t : Trampoline) (args : List GoVal), ∀ j ∈ (Probe.Fire prb t args).writes,
      j < prb.argCount := by
  have hcount : prb.argCount ≤ 6 := by
    unfold Provider.AddProbe at h
    split at h
    next p2 heq =>
      exact absurd h (by simp)
    next prb0 p2 heq =>
      simp only [Prod.mk.injEq, Except.ok.injEq] at h
      obtain ⟨rfl, rfl⟩ := h
      exact salp_providerAddProbe_argCount_le_six pv nm ts.length ts _ _ heq
  refine ⟨hcount, ?_⟩
  intro t args j hj
  unfold Probe.Fire at hj
  split at hj
  · simp [emptyFireTrace] at hj
  · next hcond =>
    have hlen : args.length = prb.argCount := by
      by_contra hne
      exact hcond (by simp [hne])
    unfold fireImpl at hj
    have hw := marshalLoop_writes_bound args 0 .init
      (by intro k hk; exact absurd hk (List.not_mem_nil k))
    cases hm : marshalLoop args 0 .init with
    | aborted st =>
      rw [hm] at hj hw
      have := hw j hj
      omega
    | completed st =>
      rw [hm] at hj hw
      have := hw j hj
      omega

/-- Witness for C8: a two-argument probe created through AddProbe. -/
theorem marshaller_writes_only_below_declared_count_witness :
    (Probe.mk "pr" 2 [ProbeArgType.int8, ProbeArgType.int8]).argCount ≤ 6 ∧
    ∀ (t : Trampoline) (args : List GoVal),
      ∀ j ∈ (Probe.Fire (Probe.mk "pr" 2 [ProbeArgType.int8, ProbeArgType.int8])
          t args).writes,
        j < (Probe.mk "pr" 2 [ProbeArgType.int8, ProbeArgType.int8]).argCount :=
  marshaller_writes_only_below_declared_count (NewProvider "w8") "pr"
    [ProbeArgType.int8, ProbeArgType.int8]
    (Probe.mk "pr" 2 [ProbeArgType.int8, ProbeArgType.int8]) (NewProvider "w8") rfl

/-- Claim C9: MustAddProbe panics exactly when AddProbe returns an error (with
that same error) and otherwise returns exactly the probe and provider state
AddProbe produces; MustLoadProvider likewise panics exactly when Load returns
an error and otherwise leaves the provider as Load does. -/
theorem must_helpers_panic_iff_underlying_error (p : Provider) (nm : String)
    (ts : List ProbeArgType) :
    (∀ e, MustAddProbe p nm ts = .panicked e ↔ (Provider.AddProbe p nm ts).1 = .error e) ∧
    (∀ prb p2, MustAddProbe p nm ts = .returned (prb, p2) ↔
      Provider.AddProbe p nm ts = (.ok prb, p2)) ∧
    (∀ e, MustLoadProvider p = .panicked e ↔ (Provider.Load p).1 = some e) ∧
    (∀ p2, MustLoadProvider p = .returned p2 ↔ Provider.Load p = (none, p2)) := by
  refine ⟨?_, ?_, ?_, ?_⟩
  · intro e
    rcases hap : Provider.AddProbe p nm ts with ⟨r, q⟩
    cases r <;> simp [MustAddProbe, hap]
  · intro prb p2
    rcases hap : Provider.AddProbe p nm ts with ⟨r, q⟩
    cases r <;> simp [MustAddProbe, hap]
  · intro e
    rcases hld : Provider.Load p with ⟨r, q⟩
    cases r <;> simp [MustLoadProvider, hld]
  · intro p2
    rcases hld : Provider.Load p with ⟨r, q⟩
    cases r <;> simp [MustLoadProvider, hld]

/-- Claim C10: the marshaller accepts Go `int`, `uint` and `uintptr` values,
storing them by value in a pointer-sized slot, and accepts any error value by
marshalling its formatted message string; none of them is dropped, and the
first three lie outside the closed runtime-type set the spec names, so the
accepted set is strictly larger than the spec's. -/
theorem fire_accepts_int_uint_uintptr_and_error (n : Int) (m k : Nat) (s : String) :
    (Probe.Fire ⟨"p", 1, [ProbeArgType.int64]⟩ (Trampoline.code 0xCC)
        [GoVal.vint n]).nativeFire = some [CSlot.num (uintptrOfInt n)] ∧
    (Probe.Fire ⟨"p", 1, [ProbeArgType.uint64]⟩ (Trampoline.code 0xCC)
        [GoVal.vuint m]).nativeFire = some [CSlot.num (uintptrOfNat m)] ∧
    (Probe.Fire ⟨"p", 1, [ProbeArgType.uint64]⟩ (Trampoline.code 0xCC)
        [GoVal.vuintptr k]).nativeFire = some [CSlot.num (uintptrOfNat k)] ∧
    (Probe.Fire ⟨"p", 1, [ProbeArgType.stringTag]⟩ (Trampoline.code 0xCC)
        [GoVal.verror s]).nativeFire = some [CSlot.ptr 0 s] ∧
    specClosedSetVal (GoVal.vint n) = false ∧
    specClosedSetVal (GoVal.vuint m) = false ∧
    specClosedSetVal (GoVal.vuintptr k) = false :=
  ⟨rfl, rfl, rfl, rfl, rfl, rfl, rfl⟩

end Salp
